import Mathlib

/-!
Verification of the Zerver DLL ABI contract and host bridge.

Shallow embedding of:
  - src/zerver/ipc/dll_abi.h   (HttpMethod enum, ServerAdapter aggregate, layout asserts)
  - src/zupervisor/dll_c_bridge.c (dll_bridge_call_init / _shutdown / _version)

Pointers are modelled as natural-number addresses wrapped in Option
(`none` is the C null pointer).  The observable behaviour of each bridge
function (diagnostics written to stdout/stderr and the calls it makes
into the plugin) is recorded as a list of events, so that "invokes
exactly once", "invokes nothing" and "passes the same pointer" are
provable statements about the trace.  The adapter lives behind a pointer
in a heap (`Nat → ServerAdapter`) so that frame properties about the
bridge not writing through the adapter can be stated.
-/

/-- The `HttpMethod` C enum from dll_abi.h: seven enumerators. -/
inductive HttpMethod where
  | GET
  | POST
  | PUT
  | PATCH
  | DELETE
  | HEAD
  | OPTIONS
deriving DecidableEq, Repr

/-- The literal integer value of each enumerator, as written in dll_abi.h. -/
def HttpMethod.toCInt : HttpMethod → Int
  | .GET => 0
  | .POST => 1
  | .PUT => 2
  | .PATCH => 3
  | .DELETE => 4
  | .HEAD => 5
  | .OPTIONS => 6

/-- All members of the enumeration, in declaration order. -/
def HttpMethod.all : List HttpMethod :=
  [.GET, .POST, .PUT, .PATCH, .DELETE, .HEAD, .OPTIONS]

/-- The `ServerAdapter` aggregate from dll_abi.h: two opaque pointers and
four function pointers.  Each field is modelled as a raw pointer value
(an address, with 0 playing the role of null), since the bridge only
ever reads and forwards them. -/
structure ServerAdapter where
  router : Nat
  runtime_resources : Nat
  addRoute : Nat
  setStatus : Nat
  setHeader : Nat
  setBody : Nat
deriving DecidableEq, Repr

/-- Memory holding `ServerAdapter` values, indexed by address. -/
def Heap : Type := Nat → ServerAdapter

/-- A concrete all-zero heap, used to instantiate theorems at a point. -/
def zeroHeap : Heap := fun _ => ⟨0, 0, 0, 0, 0, 0⟩

/-- Observable events of a bridge call: diagnostics printed to
stderr/stdout and the actual invocations of plugin entry points. -/
inductive Event where
  | errInitNull
  | errAdapterNull
  | errShutdownNull
  | errVersionNull
  | traceCallingInit
  | traceAdapterRouter (v : Nat)
  | traceAdapterAddRoute (v : Nat)
  | callFeatureInit (adapterPtr : Nat)
  | traceInitReturned (r : Int)
  | traceCallingShutdown
  | callFeatureShutdown (fnId : Nat)
  | traceCallingVersion
  | callFeatureVersion (fnId : Nat)
  | traceVersionReturned (v : Option String)
deriving DecidableEq, Repr

/-- Semantics of a plugin `FeatureInitFn`: it receives the adapter
pointer, runs in the shared address space (so it may read and write the
heap), and returns an `int`. -/
def InitFn : Type := Nat → Heap → Int × Heap

/-- Semantics of a plugin `FeatureVersionFn`: no arguments, returns a
`const char*`.  The returned pointer is modelled as `Option String`:
`none` is a null pointer, `some s` a pointer to the bytes of `s`. -/
def VersionFn : Type := Unit → Option String

/-- Result of `dll_bridge_call_init`: the returned `int`, the heap after
the call, and the trace of observable events. -/
structure InitCallResult where
  result : Int
  heap : Heap
  trace : List Event

/-- Embedding of `dll_bridge_call_init` from dll_c_bridge.c:
null-checks `init_fn` then `adapter` (each failure prints to stderr and
returns -1), prints three diagnostic lines (reading `adapter->router`
and `adapter->addRoute`), invokes `init_fn(adapter)` once, prints the
result, and returns it verbatim. -/
def dll_bridge_call_init (init_fn : Option InitFn) (adapter : Option Nat)
    (h : Heap) : InitCallResult :=
  match init_fn with
  | none => ⟨-1, h, [Event.errInitNull]⟩
  | some f =>
    match adapter with
    | none => ⟨-1, h, [Event.errAdapterNull]⟩
    | some p =>
      let a := h p
      let pre := [Event.traceCallingInit, Event.traceAdapterRouter a.router,
                  Event.traceAdapterAddRoute a.addRoute]
      let call := f p h
      ⟨call.1, call.2,
        pre ++ [Event.callFeatureInit p, Event.traceInitReturned call.1]⟩

/-- Embedding of `dll_bridge_call_shutdown` from dll_c_bridge.c: if the
function pointer is null, print a diagnostic to stderr and return;
otherwise print a trace line and invoke the function.  The C function
returns `void`, so the Lean value is just the event trace.  The shutdown
function pointer is identified by its address `fnId`. -/
def dll_bridge_call_shutdown (shutdown_fn : Option Nat) : List Event :=
  match shutdown_fn with
  | none => [Event.errShutdownNull]
  | some fid => [Event.traceCallingShutdown, Event.callFeatureShutdown fid]

/-- Embedding of `dll_bridge_call_version` from dll_c_bridge.c: if the
function pointer is null, print a diagnostic to stderr and return the
static string "unknown"; otherwise invoke the function once, print the
returned pointer, and return it unchanged.  The version function pointer
is identified by its address `fnId`, its behaviour by `f`. -/
def dll_bridge_call_version (version_fn : Option (Nat × VersionFn)) :
    Option String × List Event :=
  match version_fn with
  | none => (some "unknown", [Event.errVersionNull])
  | some (fid, f) =>
    let v := f ()
    (v, [Event.traceCallingVersion, Event.callFeatureVersion fid,
         Event.traceVersionReturned v])

/-- The adapter pointers of the `callFeatureInit` events of a trace:
one entry per actual invocation of the plugin init entry point. -/
def initCallPtrs (t : List Event) : List Nat :=
  t.filterMap fun e =>
    match e with
    | Event.callFeatureInit p => some p
    | _ => none

/-- The function identities of the `callFeatureShutdown` events of a
trace: one entry per actual invocation of the plugin shutdown entry
point. -/
def shutdownCallIds (t : List Event) : List Nat :=
  t.filterMap fun e =>
    match e with
    | Event.callFeatureShutdown fid => some fid
    | _ => none

/-- The function identities of the `callFeatureVersion` events of a
trace: one entry per actual invocation of the plugin version entry
point. -/
def versionCallIds (t : List Event) : List Nat :=
  t.filterMap fun e =>
    match e with
    | Event.callFeatureVersion fid => some fid
    | _ => none

/-- Size and alignment of one member of a C struct. -/
structure CFieldLayout where
  size : Nat
  align : Nat
deriving DecidableEq, Repr

/-- Round `off` up to the next multiple of `a` (C member alignment). -/
def alignUp (off a : Nat) : Nat := ((off + a - 1) / a) * a

/-- Standard C struct layout: members placed in declaration order, each
at the next offset aligned to its alignment; the struct alignment is the
maximum member alignment and the total size is rounded up to it.
Returns (sizeof, alignof). -/
def structLayout (fields : List CFieldLayout) : Nat × Nat :=
  let r := fields.foldl
    (fun acc f => (alignUp acc.1 f.align + f.size, max acc.2 f.align)) (0, 1)
  (alignUp r.1 r.2, r.2)

/-- A pointer member on a 64-bit target: 8 bytes, 8-byte aligned (both
`void*` and function pointers, per the comment in dll_abi.h). -/
def ptr64 : CFieldLayout := ⟨8, 8⟩

/-- The members of `ServerAdapter` in declaration order on a 64-bit
target: router, runtime_resources (both `void*`), addRoute, setStatus,
setHeader, setBody (all function pointers). -/
def serverAdapterFields64 : List CFieldLayout :=
  [ptr64, ptr64, ptr64, ptr64, ptr64, ptr64]

/-- sizeof(ServerAdapter) on a 64-bit target. -/
def sizeofServerAdapter64 : Nat := (structLayout serverAdapterFields64).1

/-- alignof(ServerAdapter) on a 64-bit target. -/
def alignofServerAdapter64 : Nat := (structLayout serverAdapterFields64).2

/-- The two `static assert` conditions of dll_abi.h, evaluated at
compile (elaboration) time: sizeof(ServerAdapter) == 48 and
alignof(ServerAdapter) == 8. -/
def serverAdapterStaticAssertHolds : Bool :=
  sizeofServerAdapter64 == 48 && alignofServerAdapter64 == 8

/-- Claim C1: with a non-null init function pointer and a non-null
adapter pointer, `dll_bridge_call_init` invokes the init function
exactly once, passes it the very same adapter pointer unchanged, and
returns exactly the integer the init function returned. -/
theorem claim_C1 (f : InitFn) (p : Nat) (h : Heap) :
    (dll_bridge_call_init (some f) (some p) h).result = (f p h).1 ∧
    initCallPtrs (dll_bridge_call_init (some f) (some p) h).trace = [p] := by
  simp [dll_bridge_call_init, initCallPtrs]

theorem claim_C1_witness :
    (dll_bridge_call_init (some fun _ hh => (3, hh)) (some 5) zeroHeap).result
        = ((fun (_ : Nat) (hh : Heap) => ((3 : Int), hh)) 5 zeroHeap).1 ∧
    initCallPtrs
        (dll_bridge_call_init (some fun _ hh => (3, hh)) (some 5) zeroHeap).trace
        = [5] :=
  claim_C1 (fun _ hh => (3, hh)) 5 zeroHeap

/-- Claim C2: when the init function pointer or the adapter pointer is
null, `dll_bridge_call_init` returns the negative sentinel -1 and does
not invoke the init function at all. -/
theorem claim_C2 (init_fn : Option InitFn) (adapter : Option Nat) (h : Heap)
    (hnull : init_fn = none ∨ adapter = none) :
    (dll_bridge_call_init init_fn adapter h).result = -1 ∧
    (dll_bridge_call_init init_fn adapter h).result < 0 ∧
    initCallPtrs (dll_bridge_call_init init_fn adapter h).trace = [] := by
  match init_fn, adapter with
  | none, _ => simp [dll_bridge_call_init, initCallPtrs]
  | some f, none => simp [dll_bridge_call_init, initCallPtrs]
  | some f, some p => simp at hnull

theorem claim_C2_witness :
    (dll_bridge_call_init none (some 0) zeroHeap).result = -1 ∧
    (dll_bridge_call_init none (some 0) zeroHeap).result < 0 ∧
    initCallPtrs (dll_bridge_call_init none (some 0) zeroHeap).trace = [] :=
  claim_C2 none (some 0) zeroHeap (Or.inl rfl)

/-- Claim C3: `dll_bridge_call_version` returns the sentinel string
"unknown" when the version function pointer is null; when it is
non-null it invokes it and returns the plugin-supplied pointer
unchanged. -/
theorem claim_C3 :
    (dll_bridge_call_version none).1 = some "unknown" ∧
    ∀ (fid : Nat) (f : VersionFn),
      (dll_bridge_call_version (some (fid, f))).1 = f () ∧
      versionCallIds (dll_bridge_call_version (some (fid, f))).2 = [fid] := by
  refine ⟨rfl, fun fid f => ?_⟩
  simp [dll_bridge_call_version, versionCallIds]

/-- Claim C4: with a null shutdown function pointer,
`dll_bridge_call_shutdown` invokes nothing and returns normally; the
whole observable behaviour is the single stderr diagnostic. -/
theorem claim_C4 :
    dll_bridge_call_shutdown none = [Event.errShutdownNull] ∧
    shutdownCallIds (dll_bridge_call_shutdown none) = [] :=
  ⟨rfl, rfl⟩

/-- Claim C5: with a non-null shutdown function pointer,
`dll_bridge_call_shutdown` invokes that very function exactly once (and
the C function returns void, so there is no return value). -/
theorem claim_C5 (fid : Nat) :
    shutdownCallIds (dll_bridge_call_shutdown (some fid)) = [fid] := by
  simp [dll_bridge_call_shutdown, shutdownCallIds]

theorem claim_C5_witness :
    shutdownCallIds (dll_bridge_call_shutdown (some 7)) = [7] :=
  claim_C5 7

/-- Claim C6: the HttpMethod enumeration has exactly the seven members
GET, POST, PUT, PATCH, DELETE, HEAD, OPTIONS with the literal integer
values 0, 1, 2, 3, 4, 5, 6 respectively. -/
theorem claim_C6 :
    HttpMethod.all.length = 7 ∧
    (∀ m : HttpMethod, m ∈ HttpMethod.all) ∧
    HttpMethod.all.Nodup ∧
    HttpMethod.all.map HttpMethod.toCInt = [0, 1, 2, 3, 4, 5, 6] := by
  refine ⟨rfl, fun m => ?_, by decide, rfl⟩
  cases m <;> simp [HttpMethod.all]

/-- Claim C7: on 64-bit targets the ServerAdapter aggregate is 48 bytes
(two opaque pointers plus four function pointers, each 8 bytes) with
8-byte alignment, and the static assertion conditions of dll_abi.h hold,
so a mismatch is rejected when the assertion is checked at build time. -/
theorem claim_C7 :
    sizeofServerAdapter64 = 48 ∧
    alignofServerAdapter64 = 8 ∧
    serverAdapterStaticAssertHolds = true := by
  decide

/-- Claim C8: the missing-entry-point sentinel of `dll_bridge_call_init`
is exactly -1, which collides with a plugin-chosen failure code: for any
non-null init function that returns -1, the call with both arguments
present returns the same value -1 as the call with a null init function,
so the caller cannot tell the two apart from the return value alone. -/
theorem claim_C8 (f : InitFn) (p : Nat) (h : Heap)
    (hf : ∀ q hh, (f q hh).1 = -1) :
    (dll_bridge_call_init (some f) (some p) h).result =
      (dll_bridge_call_init none (some p) h).result ∧
    (dll_bridge_call_init (some f) (some p) h).result = -1 := by
  simp [dll_bridge_call_init, hf]

theorem claim_C8_witness :
    (dll_bridge_call_init (some fun _ hh => (-1, hh)) (some 0) zeroHeap).result =
      (dll_bridge_call_init none (some 0) zeroHeap).result ∧
    (dll_bridge_call_init (some fun _ hh => (-1, hh)) (some 0) zeroHeap).result
      = -1 :=
  claim_C8 (fun _ hh => (-1, hh)) 0 zeroHeap (fun _ _ => rfl)

/-- Claim C9: the "unknown" fallback of `dll_bridge_call_version`
applies only to a null function pointer, not to a null result: a present
version function that returns a null pointer has that null pointer
returned unchanged, not replaced by "unknown". -/
theorem claim_C9 (fid : Nat) (f : VersionFn) (hnull : f () = none) :
    (dll_bridge_call_version (some (fid, f))).1 = none ∧
    (dll_bridge_call_version (some (fid, f))).1 ≠ some "unknown" := by
  simp [dll_bridge_call_version, hnull]

theorem claim_C9_witness :
    (dll_bridge_call_version (some (2, fun _ => none))).1 = none ∧
    (dll_bridge_call_version (some (2, fun _ => none))).1 ≠ some "unknown" :=
  claim_C9 2 (fun _ => none) rfl

/-- Claim C10: the bridge itself never writes through the adapter: for
every init function whose execution leaves the pointed-to adapter
unchanged, all six fields (router, runtime_resources, addRoute,
setStatus, setHeader, setBody) are unchanged after
`dll_bridge_call_init` returns; the bridge only reads fields for its
diagnostic trace. -/
theorem claim_C10 (f : InitFn) (p : Nat) (h : Heap)
    (hframe : (f p h).2 p = h p) :
    ((dll_bridge_call_init (some f) (some p) h).heap p).router = (h p).router ∧
    ((dll_bridge_call_init (some f) (some p) h).heap p).runtime_resources
      = (h p).runtime_resources ∧
    ((dll_bridge_call_init (some f) (some p) h).heap p).addRoute
      = (h p).addRoute ∧
    ((dll_bridge_call_init (some f) (some p) h).heap p).setStatus
      = (h p).setStatus ∧
    ((dll_bridge_call_init (some f) (some p) h).heap p).setHeader
      = (h p).setHeader ∧
    ((dll_bridge_call_init (some f) (some p) h).heap p).setBody
      = (h p).setBody := by
  simp [dll_bridge_call_init, hframe]

theorem claim_C10_witness :
    ((dll_bridge_call_init (some fun _ hh => (0, hh)) (some 4) zeroHeap).heap 4).router
      = (zeroHeap 4).router ∧
    ((dll_bridge_call_init (some fun _ hh => (0, hh)) (some 4) zeroHeap).heap 4).runtime_resources
      = (zeroHeap 4).runtime_resources ∧
    ((dll_bridge_call_init (some fun _ hh => (0, hh)) (some 4) zeroHeap).heap 4).addRoute
      = (zeroHeap 4).addRoute ∧
    ((dll_bridge_call_init (some fun _ hh => (0, hh)) (some 4) zeroHeap).heap 4).setStatus
      = (zeroHeap 4).setStatus ∧
    ((dll_bridge_call_init (some fun _ hh => (0, hh)) (some 4) zeroHeap).heap 4).setHeader
      = (zeroHeap 4).setHeader ∧
    ((dll_bridge_call_init (some fun _ hh => (0, hh)) (some 4) zeroHeap).heap 4).setBody
      = (zeroHeap 4).setBody :=
  claim_C10 (fun _ hh => (0, hh)) 4 zeroHeap rfl
